import Mathlib

/-!
Shallow embedding of `src/function_app.py` (VaultAlert Azure Function app).

The app keeps four pieces of global mutable state, all protected by one
lock (`data_lock`):
  * `history = deque(maxlen=100)` — rolling log of accepted reports,
  * `mute_next_response : bool` — one-shot mute flag,
  * `last_motion_state` — raw JSON value of the last report's
    `motion_detected` field (initially Python `False`),
  * `last_vault_status` — raw JSON value of the last report's
    `vault_status` field (initially the string `"CLOSED"`).

Three HTTP handlers act on this state: `collect_data` (report ingestion),
`mute_alarm` (arms the mute flag), `plot_data` (reads a snapshot).
Since every access to the shared state happens inside `with data_lock`,
a concurrent execution is modelled as a sequential interleaving of the
atomic critical sections; handlers become pure state transformers.
-/

/-- Python/JSON values, as produced by `req.get_json()` (`json.loads`).
Numbers are modelled as integers (the code only stores and compares them,
and compares status values against string literals, never numerically). -/
inductive Json where
  | null
  | bool (b : Bool)
  | num (n : Int)
  | str (s : String)
  | arr (xs : List Json)
  | obj (kvs : List (String × Json))

/-- Python truthiness (`bool(v)`), used by `if current_motion and not
last_motion_state`. -/
def truthy : Json → Bool
  | Json.null => false
  | Json.bool b => b
  | Json.num n => decide (n ≠ 0)
  | Json.str s => decide (s ≠ "")
  | Json.arr xs => !xs.isEmpty
  | Json.obj kvs => !kvs.isEmpty

/-- Python `==` between a JSON value and a string literal: true exactly
when the value is that string (`current_status == "OPEN"` in the source;
no non-string JSON value compares equal to a string in Python). -/
def Json.eqStr : Json → String → Bool
  | Json.str s, t => s == t
  | _, _ => false

/-- `v` is a JSON object (a Python `dict`), i.e. `.get` is available on it. -/
def Json.isObj : Json → Bool
  | Json.obj _ => true
  | _ => false

/-- Python `dict.get(key, default)` on a JSON object's key/value list.
JSON parsing yields unique keys, so first-match lookup is faithful. -/
def getD (kvs : List (String × Json)) (key : String) (default : Json) : Json :=
  match kvs.find? (fun kv => kv.1 = key) with
  | some kv => kv.2
  | none => default

/-- `deque(maxlen=cap).append`: append on the right, evicting from the left
so that at most `cap` elements remain (oldest first in the list). -/
def dequeAppend (cap : Nat) (h : List α) (r : α) : List α :=
  let h' := h ++ [r]
  h'.drop (h'.length - cap)

/-- One record of `history`: `{"timestamp": timestamp, "data": req_body}`. -/
structure HistoryRecord where
  timestamp : String
  data : Json

/-- The global mutable state of the function app. -/
structure AppState where
  history : List HistoryRecord
  mute_next_response : Bool
  last_motion_state : Json
  last_vault_status : Json

/-- State at process start (module top level of `function_app.py`). -/
def initState : AppState :=
  { history := []
    mute_next_response := false
    last_motion_state := Json.bool false
    last_vault_status := Json.str "CLOSED" }

/-- Result of `req.get_json()`: `invalid` when the body is not parseable
as JSON (raises `ValueError`), otherwise the parsed value. -/
inductive Payload where
  | invalid
  | json (v : Json)

/-- An `func.HttpResponse(body, status_code)`. -/
structure HttpResponse where
  body : String
  status : Nat

/-- Everything one call to `collect_data` produces: the new shared state,
the HTTP response, the `email_triggers` list, and the subject passed to
`send_acs_email` (`none` when no email is sent). -/
structure CollectResult where
  state : AppState
  response : HttpResponse
  triggers : List String
  emailSubject : Option String

/-- The `collect` endpoint (`collect_data` in the source), with
`datetime.now()` passed in as `timestamp`.

  * unparseable body → `ValueError` → 400 "Invalid JSON", nothing mutated;
  * parseable body that is not a JSON object: the record is appended to
    `history` first, then `req_body.get("motion_detected", False)` raises
    `AttributeError`, caught by the generic handler → 500.  The remaining
    state fields are untouched and no email is sent (the real body is
    "Server Error: ..." with the Python exception text; only the status
    is modelled);
  * JSON object: full path — append record, edge detection against the
    stored previous values, overwrite previous values with the raw current
    values, read-and-clear the mute flag, optionally email, respond
    "false" (mute) or "true". -/
def collect_data (timestamp : String) (payload : Payload) (s : AppState) :
    CollectResult :=
  match payload with
  | Payload.invalid =>
      { state := s
        response := { body := "Invalid JSON", status := 400 }
        triggers := []
        emailSubject := none }
  | Payload.json v =>
      let record : HistoryRecord := { timestamp := timestamp, data := v }
      match v with
      | Json.obj kvs =>
          let current_motion := getD kvs "motion_detected" (Json.bool false)
          let current_status := getD kvs "vault_status" (Json.str "CLOSED")
          let motionTrigger :=
            truthy current_motion && !truthy s.last_motion_state
          let vaultTrigger :=
            Json.eqStr current_status "OPEN" &&
              Json.eqStr s.last_vault_status "CLOSED"
          let email_triggers :=
            (if motionTrigger then ["Motion Detected"] else []) ++
              (if vaultTrigger then ["Vault Opened"] else [])
          let respond_with_mute := s.mute_next_response
          { state :=
              { history := dequeAppend 100 s.history record
                mute_next_response := false
                last_motion_state := current_motion
                last_vault_status := current_status }
            response :=
              { body := if respond_with_mute then "false" else "true"
                status := 200 }
            triggers := email_triggers
            emailSubject :=
              if email_triggers.isEmpty then none
              else some (String.intercalate " | " email_triggers) }
      | _ =>
          { state := { s with history := dequeAppend 100 s.history record }
            response := { body := "Server Error", status := 500 }
            triggers := []
            emailSubject := none }

/-- The `mute` endpoint (`mute_alarm` in the source): arms the flag under
the lock, then acknowledges. -/
def mute_alarm (s : AppState) : AppState × HttpResponse :=
  ({ s with mute_next_response := true },
   { body :=
       "Mute command queued. The alarm will stop the next time the device reports in."
     status := 200 })

/-- The point-in-time copy `list(history)` taken under the lock by the
`plot` endpoint. -/
def snapshot (s : AppState) : List HistoryRecord :=
  s.history

/-- One inbound request to a mutating endpoint. -/
inductive Op where
  | collect (timestamp : String) (payload : Payload)
  | mute

/-- Effect of one request on the shared state. -/
def step (s : AppState) (op : Op) : AppState :=
  match op with
  | Op.collect ts p => (collect_data ts p s).state
  | Op.mute => (mute_alarm s).1

/-- Shared state after a sequence of requests from process start. -/
def run (ops : List Op) : AppState :=
  ops.foldl step initState

/-- A report submission carrying a valid JSON-object body:
timestamp plus the object's key/value list. -/
abbrev ObjReport := String × List (String × Json)

/-- The `collect` request of an accepted (JSON-object) report. -/
def ObjReport.toOp (r : ObjReport) : Op :=
  Op.collect r.1 (Payload.json (Json.obj r.2))

/-- The history record an accepted report contributes. -/
def ObjReport.toRecord (r : ObjReport) : HistoryRecord :=
  { timestamp := r.1, data := Json.obj r.2 }

/-- Responses of a sequence of accepted report submissions, executed in
the order their lock-protected critical sections are serialized. -/
def collectResponses (s : AppState) : List ObjReport → List HttpResponse
  | [] => []
  | r :: rest =>
      let res := collect_data r.1 (Payload.json (Json.obj r.2)) s
      res.response :: collectResponses res.state rest

/-- 150 sequential accepted reports, numbered by their timestamps. -/
def rs150 : List ObjReport :=
  (List.range 150).map fun k => (toString k, [])

/-- A report body that fires both edge triggers from the initial state. -/
def bothTriggersBody : List (String × Json) :=
  [("motion_detected", Json.bool true), ("vault_status", Json.str "OPEN")]

/-! ## Helper lemmas about the embedding -/

theorem truthy_bool (b : Bool) : truthy (Json.bool b) = b := rfl

theorem eqStr_iff_eq (v : Json) (t : String) :
    Json.eqStr v t = true ↔ v = Json.str t := by
  cases v <;> simp [Json.eqStr]

/-- State after an accepted (JSON-object) report: the record is appended,
the mute flag is cleared, and the raw current field values overwrite the
previous-state memory. -/
theorem collect_state_obj (ts : String) (b : List (String × Json))
    (s : AppState) :
    (collect_data ts (Payload.json (Json.obj b)) s).state =
      { history := dequeAppend 100 s.history { timestamp := ts, data := Json.obj b }
        mute_next_response := false
        last_motion_state := getD b "motion_detected" (Json.bool false)
        last_vault_status := getD b "vault_status" (Json.str "CLOSED") } := rfl

/-- Response of an accepted report: 200 with "false" iff the mute flag was
armed on entry, "true" otherwise. -/
theorem collect_response_obj (ts : String) (b : List (String × Json))
    (s : AppState) :
    (collect_data ts (Payload.json (Json.obj b)) s).response =
      { body := if s.mute_next_response then "false" else "true"
        status := 200 } := rfl

/-- The `email_triggers` list built by an accepted report. -/
theorem collect_triggers_obj (ts : String) (b : List (String × Json))
    (s : AppState) :
    (collect_data ts (Payload.json (Json.obj b)) s).triggers =
      (if truthy (getD b "motion_detected" (Json.bool false)) &&
            !truthy s.last_motion_state then ["Motion Detected"] else []) ++
        (if Json.eqStr (getD b "vault_status" (Json.str "CLOSED")) "OPEN" &&
              Json.eqStr s.last_vault_status "CLOSED" then ["Vault Opened"]
          else []) := rfl

/-- The email subject is the triggers joined by " | " when any fired. -/
theorem collect_subject_obj (ts : String) (b : List (String × Json))
    (s : AppState) :
    (collect_data ts (Payload.json (Json.obj b)) s).emailSubject =
      (if (collect_data ts (Payload.json (Json.obj b)) s).triggers.isEmpty
        then none
        else some (String.intercalate " | "
          (collect_data ts (Payload.json (Json.obj b)) s).triggers)) := rfl

theorem mem_ite_singleton (a b : String) (c : Bool) :
    a ∈ (if c then [b] else ([] : List String)) ↔ c = true ∧ a = b := by
  cases c <;> simp

/-- "Motion Detected" fires on an accepted report iff the current
`motion_detected` value is truthy and the stored previous value is falsy. -/
theorem collect_mem_motion (ts : String) (b : List (String × Json))
    (s : AppState) :
    ("Motion Detected" ∈ (collect_data ts (Payload.json (Json.obj b)) s).triggers)
      ↔ truthy (getD b "motion_detected" (Json.bool false)) = true ∧
          truthy s.last_motion_state = false := by
  rw [collect_triggers_obj]
  simp [List.mem_append, mem_ite_singleton, Bool.and_eq_true,
    Bool.not_eq_true']

/-- "Vault Opened" fires on an accepted report iff the current
`vault_status` value is the string "OPEN" and the stored previous value is
the string "CLOSED" (literal comparisons on the raw JSON values). -/
theorem collect_mem_vault (ts : String) (b : List (String × Json))
    (s : AppState) :
    ("Vault Opened" ∈ (collect_data ts (Payload.json (Json.obj b)) s).triggers)
      ↔ getD b "vault_status" (Json.str "CLOSED") = Json.str "OPEN" ∧
          s.last_vault_status = Json.str "CLOSED" := by
  rw [collect_triggers_obj]
  simp [List.mem_append, mem_ite_singleton, Bool.and_eq_true, eqStr_iff_eq]

theorem length_dequeAppend (cap : Nat) (h : List α) (r : α) :
    (dequeAppend cap h r).length = min (h.length + 1) cap := by
  simp [dequeAppend]
  omega

/-- An accepted or type-error report appends exactly its record to the
history (the append happens before the field extraction in the source). -/
theorem collect_history_json (ts : String) (v : Json) (s : AppState) :
    (collect_data ts (Payload.json v) s).state.history =
      dequeAppend 100 s.history { timestamp := ts, data := v } := by
  cases v <;> rfl

/-- One request never pushes the history past 100 records. -/
theorem step_history_le (s : AppState) (op : Op)
    (h : s.history.length ≤ 100) : (step s op).history.length ≤ 100 := by
  cases op with
  | mute => exact h
  | collect ts p =>
      cases p with
      | invalid => exact h
      | json v =>
          show (collect_data ts (Payload.json v) s).state.history.length ≤ 100
          rw [collect_history_json, length_dequeAppend]
          omega

/-- Reachability bound: from any state within the capacity, any request
sequence stays within the capacity. -/
theorem foldl_history_le (ops : List Op) :
    ∀ s : AppState, s.history.length ≤ 100 →
      (ops.foldl step s).history.length ≤ 100 := by
  induction ops with
  | nil => intro s h; exact h
  | cons op rest ih =>
      intro s h
      exact ih (step s op) (step_history_le s op h)

/-- `dequeAppend` preserves the "last at most 100 elements of the full
stream" representation of the history. -/
theorem dequeAppend_drop (L h : List α) (r : α)
    (hh : h = L.drop (L.length - 100)) :
    dequeAppend 100 h r = (L ++ [r]).drop ((L ++ [r]).length - 100) := by
  subst hh
  simp only [dequeAppend]
  rw [← List.drop_append_of_le_length (by omega), List.drop_drop]
  have hdrop : ∀ a b : Nat, a = b →
      (L ++ [r]).drop a = (L ++ [r]).drop b := by
    intro a b hab
    rw [hab]
  apply hdrop
  simp only [List.length_append, List.length_drop, List.length_cons,
    List.length_nil]
  omega

/-- After a sequence of accepted reports, the history is the last at most
100 records of the full record stream. -/
theorem foldCollect_history (rs : List ObjReport) :
    ∀ (L : List HistoryRecord) (s : AppState),
      s.history = L.drop (L.length - 100) →
      ((rs.map ObjReport.toOp).foldl step s).history =
        (L ++ rs.map ObjReport.toRecord).drop
          ((L ++ rs.map ObjReport.toRecord).length - 100) := by
  induction rs with
  | nil => intro L s h; simpa using h
  | cons r rest ih =>
      intro L s h
      have hstep : (step s (ObjReport.toOp r)).history =
          (L ++ [ObjReport.toRecord r]).drop
            ((L ++ [ObjReport.toRecord r]).length - 100) :=
        dequeAppend_drop L s.history (ObjReport.toRecord r) h
      have := ih (L ++ [ObjReport.toRecord r]) (step s (ObjReport.toOp r)) hstep
      simpa [List.append_assoc] using this

/-- With the mute flag down, a sequence of accepted reports gets no
"false" response and leaves the flag down throughout. -/
theorem collectResponses_no_false (rs : List ObjReport) :
    ∀ s : AppState, s.mute_next_response = false →
      (collectResponses s rs).countP
        (fun resp => decide (resp.body = "false")) = 0 := by
  induction rs with
  | nil => intro s _; rfl
  | cons r rest ih =>
      intro s h
      simp only [collectResponses]
      rw [List.countP_cons]
      have hbody :
          (collect_data r.1 (Payload.json (Json.obj r.2)) s).response.body
            = "true" := by
        rw [collect_response_obj]
        simp [h]
      have hstate :
          (collect_data r.1 (Payload.json (Json.obj r.2)) s).state.mute_next_response
            = false := by
        rw [collect_state_obj]
      rw [ih _ hstate, hbody]
      simp

/-- With the mute flag down, every accepted report in a sequence is
answered with the body "true". -/
theorem collectResponses_all_true (rs : List ObjReport) :
    ∀ s : AppState, s.mute_next_response = false →
      (collectResponses s rs).all (fun resp => resp.body == "true") = true := by
  induction rs with
  | nil => intro s _; rfl
  | cons r rest ih =>
      intro s h
      simp only [collectResponses, List.all_cons, Bool.and_eq_true]
      constructor
      · rw [collect_response_obj]
        simp [h]
      · exact ih _ (by rw [collect_state_obj])

/-! ## Claim theorems -/

/-- Claim C1: after arming the mute flag, the next accepted report is
answered with body "false" (HTTP 200); the report after it is answered
"true" (HTTP 200), the flag stays down, and any further sequence of
accepted reports without re-arming is answered "true" throughout — the
mute signal is surfaced on exactly one report response per arming. -/
theorem mute_response_surfaced_once (s : AppState) (ts1 ts2 : String)
    (b1 b2 : List (String × Json)) :
    (collect_data ts1 (Payload.json (Json.obj b1)) (mute_alarm s).1).response =
        { body := "false", status := 200 } ∧
    (collect_data ts2 (Payload.json (Json.obj b2))
        (collect_data ts1 (Payload.json (Json.obj b1))
          (mute_alarm s).1).state).response =
        { body := "true", status := 200 } ∧
    ∀ rs : List ObjReport,
      ((collectResponses
          (collect_data ts1 (Payload.json (Json.obj b1))
            (mute_alarm s).1).state rs).all
        (fun resp => resp.body == "true")) = true :=
  ⟨rfl, rfl, fun rs => collectResponses_all_true rs _ rfl⟩

/-- Claim C2: for two consecutive accepted reports whose
`motion_detected` values are the booleans `m1` then `m2`, the second
report emits "Motion Detected" iff `m1 = false` and `m2 = true`
(false→true edge only). -/
theorem motion_label_edge_iff (s : AppState) (ts1 ts2 : String)
    (b1 b2 : List (String × Json)) (m1 m2 : Bool)
    (h1 : getD b1 "motion_detected" (Json.bool false) = Json.bool m1)
    (h2 : getD b2 "motion_detected" (Json.bool false) = Json.bool m2) :
    ("Motion Detected" ∈
        (collect_data ts2 (Payload.json (Json.obj b2))
          (collect_data ts1 (Payload.json (Json.obj b1)) s).state).triggers) ↔
      m1 = false ∧ m2 = true := by
  rw [collect_mem_motion, collect_state_obj]
  simp [h1, h2, truthy_bool, and_comm]

/-- Witness for C2 at a false→true edge from the initial state. -/
theorem motion_label_edge_iff_witness :
    getD [("motion_detected", Json.bool false)] "motion_detected"
        (Json.bool false) = Json.bool false ∧
    getD [("motion_detected", Json.bool true)] "motion_detected"
        (Json.bool false) = Json.bool true ∧
    (("Motion Detected" ∈
        (collect_data "t2"
          (Payload.json (Json.obj [("motion_detected", Json.bool true)]))
          (collect_data "t1"
            (Payload.json (Json.obj [("motion_detected", Json.bool false)]))
            initState).state).triggers) ↔
      (false = false ∧ true = true)) :=
  ⟨rfl, rfl, motion_label_edge_iff initState "t1" "t2" _ _ false true rfl rfl⟩

/-- Claim C3, counterexample: a report with vault_status "OPEN"
immediately after a report with vault_status "X" does NOT emit
"Vault Opened" — the stored previous value "X" is compared literally to
"CLOSED" rather than being normalized. -/
theorem vault_open_after_other_string_counterexample :
    "Vault Opened" ∉
      (collect_data "t2"
        (Payload.json (Json.obj [("vault_status", Json.str "OPEN")]))
        (collect_data "t1"
          (Payload.json (Json.obj [("vault_status", Json.str "X")]))
          initState).state).triggers := by
  decide

/-- Claim C3 as amended: a non-"OPEN" value fails the OPEN test, but the
previous value is stored verbatim and compared literally: "Vault Opened"
is emitted iff the current report's vault_status is exactly the string
"OPEN" and the stored previous vault_status is exactly the string
"CLOSED"; the stored value after the report is the raw current value. -/
theorem vault_label_iff_literal_strings (s : AppState) (ts : String)
    (b : List (String × Json)) :
    (("Vault Opened" ∈
        (collect_data ts (Payload.json (Json.obj b)) s).triggers) ↔
      getD b "vault_status" (Json.str "CLOSED") = Json.str "OPEN" ∧
        s.last_vault_status = Json.str "CLOSED") ∧
    (collect_data ts (Payload.json (Json.obj b)) s).state.last_vault_status =
      getD b "vault_status" (Json.str "CLOSED") :=
  ⟨collect_mem_vault ts b s, rfl⟩

/-- Claim C4, counterexample: the valid-JSON non-object payload `5` is
answered with HTTP 500 (not 400) and the history grows by one record —
the record is appended before the field extraction raises. -/
theorem nonobject_payload_counterexample :
    (collect_data "t" (Payload.json (Json.num 5)) initState).response.status
        = 500 ∧
    (collect_data "t" (Payload.json (Json.num 5))
        initState).state.history.length = 1 :=
  ⟨rfl, rfl⟩

/-- Claim C4 as amended: a payload that is not parseable as JSON gets
HTTP 400 and mutates nothing; a payload that is valid JSON but not an
object gets HTTP 500 and its record is appended to the history (the
other state fields are untouched). -/
theorem invalid_and_nonobject_payloads (s : AppState) (ts : String)
    (v : Json) (h : Json.isObj v = false) :
    ((collect_data ts Payload.invalid s).response.status = 400 ∧
      (collect_data ts Payload.invalid s).state = s) ∧
    ((collect_data ts (Payload.json v) s).response.status = 500 ∧
      (collect_data ts (Payload.json v) s).state =
        { s with
            history := dequeAppend 100 s.history { timestamp := ts, data := v } }) := by
  cases v <;> first
    | exact ⟨⟨rfl, rfl⟩, rfl, rfl⟩
    | simp [Json.isObj] at h

/-- Witness for the amended C4 at the payload `5` from the initial
state. -/
theorem invalid_and_nonobject_payloads_witness :
    Json.isObj (Json.num 5) = false ∧
    ((collect_data "t" Payload.invalid initState).response.status = 400 ∧
      (collect_data "t" Payload.invalid initState).state = initState) ∧
    ((collect_data "t" (Payload.json (Json.num 5))
        initState).response.status = 500 ∧
      (collect_data "t" (Payload.json (Json.num 5)) initState).state =
        { initState with
            history := dequeAppend 100 initState.history
              (HistoryRecord.mk "t" (Json.num 5)) }) :=
  ⟨rfl, invalid_and_nonobject_payloads initState "t" (Json.num 5) rfl⟩

/-- Claim C5: the history never holds more than 100 records under any
request sequence, and after any 150 accepted report submissions from the
empty initial history the snapshot is exactly the records of submissions
51 through 150 in submission order, hence of length 100. -/
theorem history_bound_and_window :
    (∀ ops : List Op, (run ops).history.length ≤ 100) ∧
    ∀ rs : List ObjReport, rs.length = 150 →
      snapshot (run (rs.map ObjReport.toOp)) =
          (rs.map ObjReport.toRecord).drop 50 ∧
        (snapshot (run (rs.map ObjReport.toOp))).length = 100 := by
  constructor
  · intro ops
    exact foldl_history_le ops initState (by decide)
  · intro rs hlen
    have h := foldCollect_history rs [] initState rfl
    have hh : snapshot (run (rs.map ObjReport.toOp)) =
        (rs.map ObjReport.toRecord).drop 50 := by
      show ((rs.map ObjReport.toOp).foldl step initState).history =
        (rs.map ObjReport.toRecord).drop 50
      rw [h]
      simp [hlen]
    refine ⟨hh, ?_⟩
    rw [hh]
    simp [List.length_drop, hlen]

/-- Witness for C5 at 150 concrete numbered reports. -/
theorem history_bound_and_window_witness :
    rs150.length = 150 ∧
    snapshot (run (rs150.map ObjReport.toOp)) =
      (rs150.map ObjReport.toRecord).drop 50 :=
  ⟨by simp [rs150], (history_bound_and_window.2 rs150 (by simp [rs150])).1⟩

/-- Claim C6: after any sequence of accepted reports ending with report
`r` (from an arbitrary starting state, so after the k-th report of any
run), the stored previous-state memory holds exactly `r`'s raw
`motion_detected` value (default the boolean false when missing) and raw
`vault_status` value (default the string "CLOSED" when missing). -/
theorem device_state_tracks_last_report (rs : List ObjReport)
    (r : ObjReport) (s : AppState) :
    (((rs ++ [r]).map ObjReport.toOp).foldl step s).last_motion_state =
        getD r.2 "motion_detected" (Json.bool false) ∧
    (((rs ++ [r]).map ObjReport.toOp).foldl step s).last_vault_status =
        getD r.2 "vault_status" (Json.str "CLOSED") := by
  rw [List.map_append, List.foldl_append]
  exact ⟨rfl, rfl⟩

/-- Claim C7: when both labels fire from a single accepted report, the
triggers list is exactly ["Motion Detected", "Vault Opened"] in that
order, and the email subject is the labels joined by " | ", i.e.
"Motion Detected | Vault Opened". -/
theorem trigger_order_and_subject (s : AppState) (ts : String)
    (b : List (String × Json))
    (hm : "Motion Detected" ∈
      (collect_data ts (Payload.json (Json.obj b)) s).triggers)
    (hv : "Vault Opened" ∈
      (collect_data ts (Payload.json (Json.obj b)) s).triggers) :
    (collect_data ts (Payload.json (Json.obj b)) s).triggers =
        ["Motion Detected", "Vault Opened"] ∧
    (collect_data ts (Payload.json (Json.obj b)) s).emailSubject =
        some "Motion Detected | Vault Opened" := by
  obtain ⟨hm1, hm2⟩ := (collect_mem_motion ts b s).1 hm
  obtain ⟨hv1, hv2⟩ := (collect_mem_vault ts b s).1 hv
  have htrig : (collect_data ts (Payload.json (Json.obj b)) s).triggers =
      ["Motion Detected", "Vault Opened"] := by
    rw [collect_triggers_obj, hm1, hm2, hv1, hv2]
    rfl
  refine ⟨htrig, ?_⟩
  rw [collect_subject_obj, htrig]
  rfl

/-- Witness for C7 at a report firing both triggers from the initial
state. -/
theorem trigger_order_and_subject_witness :
    ("Motion Detected" ∈
      (collect_data "t" (Payload.json (Json.obj bothTriggersBody))
        initState).triggers) ∧
    ("Vault Opened" ∈
      (collect_data "t" (Payload.json (Json.obj bothTriggersBody))
        initState).triggers) ∧
    (collect_data "t" (Payload.json (Json.obj bothTriggersBody))
        initState).emailSubject = some "Motion Detected | Vault Opened" :=
  ⟨by decide, by decide,
    (trigger_order_and_subject initState "t" bothTriggersBody
      (by decide) (by decide)).2⟩

/-- Claim C8: arming the mute flag is idempotent — any number of
consecutive mute calls leaves the state identical to one call — and the
subsequent accepted reports behave as after a single arming: exactly one
"false" response, then "true". -/
theorem mute_arm_idempotent (s : AppState) (n : Nat) (ts1 ts2 : String)
    (b1 b2 : List (String × Json)) :
    (fun t => (mute_alarm t).1)^[n + 1] s = (mute_alarm s).1 ∧
    (collect_data ts1 (Payload.json (Json.obj b1))
        ((fun t => (mute_alarm t).1)^[n + 1] s)).response.body = "false" ∧
    (collect_data ts2 (Payload.json (Json.obj b2))
        (collect_data ts1 (Payload.json (Json.obj b1))
          ((fun t => (mute_alarm t).1)^[n + 1] s)).state).response.body =
      "true" := by
  have hiter : (fun t => (mute_alarm t).1)^[n + 1] s = (mute_alarm s).1 := by
    induction n with
    | zero => rfl
    | succ k ih =>
        rw [Function.iterate_succ_apply', ih]
        rfl
  refine ⟨hiter, ?_, ?_⟩
  · rw [hiter]
    rfl
  · rw [hiter]
    rfl

/-- Claim C9: the read-and-clear of the mute flag under the lock is
exactly-once.  Concurrent report submissions serialize on `data_lock`,
so any concurrent execution of N accepted reports after exactly one
arming (and before any other arming) is an execution of the N critical
sections in some sequential order; in every such order exactly one of
the N responses has body "false". -/
theorem mute_consume_exactly_once (s : AppState)
    (h : s.mute_next_response = true) (rs : List ObjReport)
    (hne : rs ≠ []) :
    (collectResponses s rs).countP
      (fun resp => decide (resp.body = "false")) = 1 := by
  cases rs with
  | nil => exact absurd rfl hne
  | cons r rest =>
      simp only [collectResponses]
      rw [List.countP_cons]
      have hbody :
          (collect_data r.1 (Payload.json (Json.obj r.2)) s).response.body
            = "false" := by
        rw [collect_response_obj]
        simp [h]
      have hstate :
          (collect_data r.1 (Payload.json (Json.obj r.2)) s).state.mute_next_response
            = false := by
        rw [collect_state_obj]
      rw [collectResponses_no_false rest _ hstate, hbody]
      simp

/-- Witness for C9: one armed flag, one report, exactly one "false". -/
theorem mute_consume_exactly_once_witness :
    (mute_alarm initState).1.mute_next_response = true ∧
    ([(("t" : String), ([] : List (String × Json)))] : List ObjReport) ≠ [] ∧
    (collectResponses (mute_alarm initState).1 [("t", [])]).countP
      (fun resp => decide (resp.body = "false")) = 1 :=
  ⟨rfl, List.cons_ne_nil _ _,
    mute_consume_exactly_once (mute_alarm initState).1 rfl [("t", [])]
      (List.cons_ne_nil _ _)⟩

/-- Claim C10: any truthy JSON value for `motion_detected` (not only the
boolean true) counts as motion present — following a falsy stored value
it fires "Motion Detected" — and the stored last-motion state becomes
that raw value, not a normalized boolean. -/
theorem truthy_motion_counts_as_present (s : AppState) (ts : String)
    (b : List (String × Json)) (v : Json)
    (h1 : getD b "motion_detected" (Json.bool false) = v)
    (h2 : truthy v = true)
    (h3 : truthy s.last_motion_state = false) :
    ("Motion Detected" ∈
      (collect_data ts (Payload.json (Json.obj b)) s).triggers) ∧
    (collect_data ts (Payload.json (Json.obj b)) s).state.last_motion_state
      = v := by
  constructor
  · exact (collect_mem_motion ts b s).2 ⟨by rw [h1]; exact h2, h3⟩
  · rw [collect_state_obj]
    exact h1

/-- Witness for C10 at the truthy non-boolean value "no" from the
initial state. -/
theorem truthy_motion_counts_as_present_witness :
    getD [("motion_detected", Json.str "no")] "motion_detected"
        (Json.bool false) = Json.str "no" ∧
    truthy (Json.str "no") = true ∧
    truthy initState.last_motion_state = false ∧
    ("Motion Detected" ∈
      (collect_data "t"
        (Payload.json (Json.obj [("motion_detected", Json.str "no")]))
        initState).triggers) ∧
    (collect_data "t"
        (Payload.json (Json.obj [("motion_detected", Json.str "no")]))
        initState).state.last_motion_state = Json.str "no" :=
  ⟨rfl, rfl, rfl,
    (truthy_motion_counts_as_present initState "t"
      [("motion_detected", Json.str "no")] (Json.str "no") rfl rfl rfl).1,
    (truthy_motion_counts_as_present initState "t"
      [("motion_detected", Json.str "no")] (Json.str "no") rfl rfl rfl).2⟩
